import Mathlib

/-
Verification of the CEP-to-weather two-service pipeline
(input service `service-a/main.go`, orchestration service `service-b/main.go`,
and the legacy single-service variant `main.go`).

Modelling conventions:
* Go strings are Lean `String`s; rune-level operations work on `String.data`.
* Go `float64` temperature arithmetic is modelled over `ℚ`; all constants
  appearing in the source (1.8, 32, 273) are exactly representable.
* Each external HTTP interaction (ViaCEP, WeatherAPI, the service-a to
  service-b hop) is an input to the modelled function: either the request
  could not be built, the transport failed, or a status code arrived
  together with the decode result of the payload.
* Go `error` values are modelled as `Except String` carrying the exact
  message built by the corresponding `fmt.Errorf` call; service-a inspects
  these messages with `strings.Contains`, so the text matters.
* OpenTelemetry spans and outgoing HTTP calls are recorded in an event
  trace returned alongside each result.  `defer span.End()` in the source
  means the span-end event is appended on every exit path of the function,
  which is mirrored branch by branch below.  `span.SetAttributes` calls are
  pure annotations and are not recorded as events.
-/

set_option maxRecDepth 4096

/-- goIsSpace mirrors Go `unicode.IsSpace`: the Latin-1 white space
characters and the Unicode White_Space code points. -/
def goIsSpace (c : Char) : Bool :=
  let n := c.toNat
  [0x9, 0xA, 0xB, 0xC, 0xD, 0x20, 0x85, 0xA0, 0x1680,
   0x2028, 0x2029, 0x202F, 0x205F, 0x3000].contains n
  || (decide (0x2000 ≤ n) && decide (n ≤ 0x200A))

/-- removeDashesL mirrors Go `strings.ReplaceAll(s, "-", "")` on rune lists:
every hyphen is removed. -/
def removeDashesL (l : List Char) : List Char :=
  l.filter (fun c => c != '-')

/-- goTrimSpaceL mirrors Go `strings.TrimSpace`: drop white space from the
front, then from the back. -/
def goTrimSpaceL (l : List Char) : List Char :=
  ((l.dropWhile goIsSpace).reverse.dropWhile goIsSpace).reverse

/-- matchDigits n l mirrors matching the anchored regular expression of n
digit classes (the source uses a pattern of exactly eight digits anchored at
both ends): the list must consist of exactly n ASCII decimal digits. -/
def matchDigits : Nat → List Char → Bool
  | 0, [] => true
  | 0, _ :: _ => false
  | _ + 1, [] => false
  | n + 1, c :: cs => c.isDigit && matchDigits n cs

/-- digitChar mirrors the decimal digit rendering used by Go `fmt.Sprintf`
with the integer verb: one character per digit value. -/
def digitChar (d : Nat) : Char :=
  match d with
  | 0 => '0'
  | 1 => '1'
  | 2 => '2'
  | 3 => '3'
  | 4 => '4'
  | 5 => '5'
  | 6 => '6'
  | 7 => '7'
  | 8 => '8'
  | _ => '9'

/-- natDigitsCore renders a natural number in decimal, most significant
digit first, with a fuel argument bounding the recursion depth. -/
def natDigitsCore : Nat → Nat → List Char
  | 0, _ => []
  | fuel + 1, n =>
      if n < 10 then [digitChar n]
      else natDigitsCore fuel (n / 10) ++ [digitChar (n % 10)]

/-- natDigits renders a natural number in decimal, most significant digit
first, as Go `fmt.Sprintf` does for a non-negative integer. -/
def natDigits (n : Nat) : List Char :=
  natDigitsCore (n + 1) n

/-- natStr is the string form of `natDigits`. -/
def natStr (n : Nat) : String :=
  ⟨natDigits n⟩

/-- hasPrefixL sub s holds when sub is a prefix of s (rune lists). -/
def hasPrefixL : List Char → List Char → Bool
  | [], _ => true
  | _ :: _, [] => false
  | a :: as, b :: bs => a == b && hasPrefixL as bs

/-- containsL sub s mirrors substring search: sub occurs contiguously in s. -/
def containsL (sub : List Char) : List Char → Bool
  | [] => sub.isEmpty
  | b :: bs => hasPrefixL sub (b :: bs) || containsL sub bs

/-- goContains mirrors Go `strings.Contains(s, sub)`. -/
def goContains (s sub : String) : Bool :=
  containsL sub.data s.data

/-- Ev is one observable event of a request: a span lifecycle event
(started / error recorded / ended, by operation name) or an outgoing HTTP
call to one of the three upstreams. -/
inductive Ev where
  | spanStart (op : String)
  | spanErr (op : String)
  | spanEnd (op : String)
  | callPostal (cep : String)
  | callWeather (localidade : String)
  | callSvcB (cep : String)
  deriving DecidableEq, Repr

/-- countStart op l counts the span-start events for operation op. -/
def countStart (op : String) : List Ev → Nat
  | [] => 0
  | Ev.spanStart o :: rest => (if o = op then 1 else 0) + countStart op rest
  | _ :: rest => countStart op rest

/-- countStop op l counts the span-end events for operation op. -/
def countStop (op : String) : List Ev → Nat
  | [] => 0
  | Ev.spanEnd o :: rest => (if o = op then 1 else 0) + countStop op rest
  | _ :: rest => countStop op rest

/-- isUpstreamCall recognises the events that represent an outgoing HTTP
call to any upstream (postal registry, weather provider, service-b). -/
def isUpstreamCall : Ev → Bool
  | Ev.callPostal _ => true
  | Ev.callWeather _ => true
  | Ev.callSvcB _ => true
  | _ => false

/-- hasUpstreamCall l holds when the trace contains any upstream call. -/
def hasUpstreamCall (l : List Ev) : Bool :=
  l.any isUpstreamCall

/-- CEP is the ViaCEP payload (struct `CEP` in both `main.go` files): the
provider fields plus the optional `erro` flag signalling not-found. -/
structure CEP where
  cep : String
  logradouro : String
  complemento : String
  bairro : String
  localidade : String
  uf : String
  ibge : String
  gia : String
  ddd : String
  siafi : String
  erro : Bool
  deriving DecidableEq, Repr

/-- WeatherLocation is the `location` object of the WeatherAPI payload;
only the fields read by the services are modelled (the source decodes many
more numeric telemetry fields that are never consulted). -/
structure WeatherLocation where
  name : String
  region : String
  country : String
  deriving DecidableEq, Repr

/-- WeatherCondition is the `condition` object of the WeatherAPI payload. -/
structure WeatherCondition where
  text : String
  deriving DecidableEq, Repr

/-- WeatherCurrent is the `current` object of the WeatherAPI payload;
`tempC` is the `temp_c` reading. -/
structure WeatherCurrent where
  tempC : ℚ
  condition : WeatherCondition
  deriving DecidableEq, Repr

/-- WeatherData is struct `WeatherData` of the source. -/
structure WeatherData where
  location : WeatherLocation
  current : WeatherCurrent
  deriving DecidableEq, Repr

/-- CEPRequest is struct `CEPRequest` of service-a: the JSON request body. -/
structure CEPRequest where
  cep : String
  deriving DecidableEq, Repr

/-- TemperatureResponse is the success payload shared by service-a and
service-b: city plus the temperature in the three units. -/
structure TemperatureResponse where
  city : String
  tempC : ℚ
  tempF : ℚ
  tempK : ℚ
  deriving DecidableEq, Repr

/-- RespBody is the JSON body written by a handler: either the single-field
error object (struct `ErrorResponse`) or the temperature report. -/
inductive RespBody where
  | errorMsg (message : String)
  | report (r : TemperatureResponse)
  deriving DecidableEq, Repr

/-- HttpResponse is the status code and body written by a handler. -/
structure HttpResponse where
  status : Nat
  body : RespBody
  deriving DecidableEq, Repr

/-- FetchOutcome is the outcome of one `http.NewRequestWithContext` plus
`httpClient.Do` interaction: request construction failed (with the Go error
text), the transport failed (with the Go error text), or a status code
arrived with the decode result of the payload (the decode error text when
JSON decoding fails). -/
inductive FetchOutcome (α : Type) where
  | reqError (msg : String)
  | netError (msg : String)
  | response (status : Nat) (decoded : Except String α)

/-- GetOutcome is the outcome of a bare `httpClient.Get` (legacy variant):
there is no separate request-construction step. -/
inductive GetOutcome (α : Type) where
  | netError (msg : String)
  | response (status : Nat) (decoded : Except String α)

namespace ServiceB

/-- isValidCEP mirrors `isValidCEP` of service-b: remove hyphens, trim
surrounding white space, then require exactly eight decimal digits. -/
def isValidCEP (cep : String) : Bool :=
  matchDigits 8 (goTrimSpaceL (removeDashesL cep.data))

/-- getCEPInfo mirrors `getCEPInfo` of service-b: strip hyphens, call
ViaCEP inside span get_cep_info, map non-200 statuses, decode failures,
the provider `erro` flag and an empty `localidade` to errors. -/
def getCEPInfo (cep : String) (out : FetchOutcome CEP) :
    Except String CEP × List Ev :=
  let op := "get_cep_info"
  let c := ⟨removeDashesL cep.data⟩
  match out with
  | FetchOutcome.reqError m =>
      (Except.error (("erro ao criar request: ") ++ m),
       [Ev.spanStart op, Ev.spanErr op, Ev.spanEnd op])
  | FetchOutcome.netError m =>
      (Except.error (("erro ao consultar CEP: ") ++ m),
       [Ev.spanStart op, Ev.callPostal c, Ev.spanErr op, Ev.spanEnd op])
  | FetchOutcome.response st dec =>
      if st = 200 then
        match dec with
        | Except.error m =>
            (Except.error (("erro ao decodificar resposta do CEP: ") ++ m),
             [Ev.spanStart op, Ev.callPostal c, Ev.spanErr op, Ev.spanEnd op])
        | Except.ok d =>
            if d.erro then
              (Except.error ("CEP não encontrado"),
               [Ev.spanStart op, Ev.callPostal c, Ev.spanEnd op])
            else if d.localidade = ("") then
              (Except.error ("CEP não encontrado"),
               [Ev.spanStart op, Ev.callPostal c, Ev.spanEnd op])
            else
              (Except.ok d,
               [Ev.spanStart op, Ev.callPostal c, Ev.spanEnd op])
      else
        (Except.error (("erro na API ViaCEP: status ") ++ natStr st),
         [Ev.spanStart op, Ev.callPostal c, Ev.spanErr op, Ev.spanEnd op])

/-- getWeatherInfo mirrors `getWeatherInfo` of service-b: call WeatherAPI
for the locality inside span get_weather_info, map transport failures,
non-200 statuses and decode failures to errors. -/
def getWeatherInfo (localidade : String) (out : FetchOutcome WeatherData) :
    Except String WeatherData × List Ev :=
  let op := "get_weather_info"
  match out with
  | FetchOutcome.reqError m =>
      (Except.error (("erro ao criar request: ") ++ m),
       [Ev.spanStart op, Ev.spanErr op, Ev.spanEnd op])
  | FetchOutcome.netError m =>
      (Except.error (("erro ao consultar clima: ") ++ m),
       [Ev.spanStart op, Ev.callWeather localidade, Ev.spanErr op, Ev.spanEnd op])
  | FetchOutcome.response st dec =>
      if st = 200 then
        match dec with
        | Except.error m =>
            (Except.error (("erro ao decodificar resposta do clima: ") ++ m),
             [Ev.spanStart op, Ev.callWeather localidade, Ev.spanErr op, Ev.spanEnd op])
        | Except.ok w =>
            (Except.ok w,
             [Ev.spanStart op, Ev.callWeather localidade, Ev.spanEnd op])
      else
        (Except.error (("erro na API Weather: status ") ++ natStr st),
         [Ev.spanStart op, Ev.callWeather localidade, Ev.spanErr op, Ev.spanEnd op])

/-- celsiusToFahrenheit mirrors `celsiusToFahrenheit` of service-b. -/
def celsiusToFahrenheit (c : ℚ) : ℚ :=
  c * 1.8 + 32

/-- celsiusToKelvin mirrors `celsiusToKelvin` of service-b. -/
def celsiusToKelvin (c : ℚ) : ℚ :=
  c + 273

/-- weatherHandler mirrors `weatherHandler` of service-b: inside span
weather_handler, validate the format (422), resolve the CEP (404 on any
error), fetch the weather (500 on any error), otherwise respond 200 with
the report whose city is the weather provider's location name. -/
def weatherHandler (cep : String) (postal : FetchOutcome CEP)
    (weather : FetchOutcome WeatherData) : HttpResponse × List Ev :=
  let op := "weather_handler"
  if isValidCEP cep = false then
    (⟨422, RespBody.errorMsg ("invalid zipcode")⟩,
     [Ev.spanStart op, Ev.spanEnd op])
  else
    match getCEPInfo cep postal with
    | (Except.error _, tr) =>
        (⟨404, RespBody.errorMsg ("can not find zipcode")⟩,
         Ev.spanStart op :: tr ++ [Ev.spanErr op, Ev.spanEnd op])
    | (Except.ok cepInfo, tr) =>
        match getWeatherInfo cepInfo.localidade weather with
        | (Except.error _, tr2) =>
            (⟨500, RespBody.errorMsg ("weather service unavailable")⟩,
             Ev.spanStart op :: tr ++ tr2 ++ [Ev.spanErr op, Ev.spanEnd op])
        | (Except.ok weatherInfo, tr2) =>
            let tempC := weatherInfo.current.tempC
            (⟨200, RespBody.report
               { city := weatherInfo.location.name
                 tempC := tempC
                 tempF := celsiusToFahrenheit tempC
                 tempK := celsiusToKelvin tempC }⟩,
             Ev.spanStart op :: tr ++ tr2 ++ [Ev.spanEnd op])

end ServiceB

namespace ServiceA

/-- isValidCEPFormat mirrors `isValidCEPFormat` of service-a: remove
hyphens, trim surrounding white space, then require exactly eight decimal
digits. -/
def isValidCEPFormat (cep : String) : Bool :=
  matchDigits 8 (goTrimSpaceL (removeDashesL cep.data))

/-- callServiceB mirrors `callServiceB` of service-a: inside span
call_service_b, call service-b with the CEP appended to the base URL and
map the status: 200 decodes the body, 422 and 404 become the two canonical
error strings, anything else becomes the generic status error string. -/
def callServiceB (cep : String) (out : FetchOutcome TemperatureResponse) :
    Except String TemperatureResponse × List Ev :=
  let op := "call_service_b"
  match out with
  | FetchOutcome.reqError m =>
      (Except.error (("erro ao criar request: ") ++ m),
       [Ev.spanStart op, Ev.spanEnd op])
  | FetchOutcome.netError m =>
      (Except.error (("erro ao chamar serviço B: ") ++ m),
       [Ev.spanStart op, Ev.callSvcB cep, Ev.spanEnd op])
  | FetchOutcome.response st dec =>
      if st = 200 then
        match dec with
        | Except.error m =>
            (Except.error (("erro ao decodificar resposta: ") ++ m),
             [Ev.spanStart op, Ev.callSvcB cep, Ev.spanEnd op])
        | Except.ok t =>
            (Except.ok t,
             [Ev.spanStart op, Ev.callSvcB cep, Ev.spanEnd op])
      else if st = 422 then
        (Except.error ("invalid zipcode"),
         [Ev.spanStart op, Ev.callSvcB cep, Ev.spanEnd op])
      else if st = 404 then
        (Except.error ("can not find zipcode"),
         [Ev.spanStart op, Ev.callSvcB cep, Ev.spanEnd op])
      else
        (Except.error (("erro no serviço B: status ") ++ natStr st),
         [Ev.spanStart op, Ev.callSvcB cep, Ev.spanEnd op])

/-- cepHandler mirrors `cepHandler` of service-a: inside span cep_handler,
a body decode failure gives 400, an empty or format-invalid CEP gives 422
before any network call, and an error from `callServiceB` is classified by
substring search on its message (invalid zipcode then can not find zipcode,
otherwise the generic 500); success relays the decoded report with 200. -/
def cepHandler (body : Except String CEPRequest)
    (svcB : FetchOutcome TemperatureResponse) : HttpResponse × List Ev :=
  let op := "cep_handler"
  match body with
  | Except.error _ =>
      (⟨400, RespBody.errorMsg ("invalid request body")⟩,
       [Ev.spanStart op, Ev.spanErr op, Ev.spanEnd op])
  | Except.ok cepReq =>
      if cepReq.cep = ("") ∨ isValidCEPFormat cepReq.cep = false then
        (⟨422, RespBody.errorMsg ("invalid zipcode")⟩,
         [Ev.spanStart op, Ev.spanEnd op])
      else
        match callServiceB cepReq.cep svcB with
        | (Except.error e, tr) =>
            if goContains e ("invalid zipcode") then
              (⟨422, RespBody.errorMsg ("invalid zipcode")⟩,
               Ev.spanStart op :: tr ++ [Ev.spanErr op, Ev.spanEnd op])
            else if goContains e ("can not find zipcode") then
              (⟨404, RespBody.errorMsg ("can not find zipcode")⟩,
               Ev.spanStart op :: tr ++ [Ev.spanErr op, Ev.spanEnd op])
            else
              (⟨500, RespBody.errorMsg ("internal server error")⟩,
               Ev.spanStart op :: tr ++ [Ev.spanErr op, Ev.spanEnd op])
        | (Except.ok response, tr) =>
            (⟨200, RespBody.report response⟩,
             Ev.spanStart op :: tr ++ [Ev.spanEnd op])

end ServiceA

namespace Legacy

/-- TemperatureResponse is the success payload of the legacy single-service
variant `main.go`: the three temperatures, with no city field. -/
structure TemperatureResponse where
  tempC : ℚ
  tempF : ℚ
  tempK : ℚ
  deriving DecidableEq, Repr

/-- RespBody is the JSON body written by the legacy handler. -/
inductive RespBody where
  | errorMsg (message : String)
  | report (r : TemperatureResponse)
  deriving DecidableEq, Repr

/-- HttpResponse is the status code and body written by the legacy handler. -/
structure HttpResponse where
  status : Nat
  body : RespBody
  deriving DecidableEq, Repr

/-- isValidCEP mirrors `isValidCEP` of the legacy variant. -/
def isValidCEP (cep : String) : Bool :=
  matchDigits 8 (goTrimSpaceL (removeDashesL cep.data))

/-- getCEPInfo mirrors `getCEPInfo` of the legacy variant: strip hyphens,
call ViaCEP with `httpClient.Get`, map non-200 statuses, decode failures,
the provider `erro` flag and an empty `localidade` to errors. -/
def getCEPInfo (cep : String) (out : GetOutcome CEP) : Except String CEP :=
  match out with
  | GetOutcome.netError m =>
      Except.error (("erro ao consultar CEP: ") ++ m)
  | GetOutcome.response st dec =>
      if st = 200 then
        match dec with
        | Except.error m =>
            Except.error (("erro ao decodificar resposta do CEP: ") ++ m)
        | Except.ok d =>
            if d.erro then Except.error ("CEP não encontrado")
            else if d.localidade = ("") then Except.error ("CEP não encontrado")
            else Except.ok d
      else
        Except.error (("erro na API ViaCEP: status ") ++ natStr st)

/-- getWeatherInfo mirrors `getWeatherInfo` of the legacy variant. -/
def getWeatherInfo (localidade : String) (out : GetOutcome WeatherData) :
    Except String WeatherData :=
  match out with
  | GetOutcome.netError m =>
      Except.error (("erro ao consultar clima: ") ++ m)
  | GetOutcome.response st dec =>
      if st = 200 then
        match dec with
        | Except.error m =>
            Except.error (("erro ao decodificar resposta do clima: ") ++ m)
        | Except.ok w => Except.ok w
      else
        Except.error (("erro na API Weather: status ") ++ natStr st)

/-- celsiusToFahrenheit mirrors `celsiusToFahrenheit` of the legacy variant. -/
def celsiusToFahrenheit (c : ℚ) : ℚ :=
  c * 1.8 + 32

/-- celsiusToKelvin mirrors `celsiusToKelvin` of the legacy variant. -/
def celsiusToKelvin (c : ℚ) : ℚ :=
  c + 273

/-- weatherHandler mirrors `weatherHandler` of the legacy variant: validate
the format (422), resolve the CEP (404 on any error), fetch the weather
(500 on any error), otherwise respond 200 with the three temperatures. -/
def weatherHandler (cep : String) (postal : GetOutcome CEP)
    (weather : GetOutcome WeatherData) : HttpResponse :=
  if isValidCEP cep = false then
    ⟨422, RespBody.errorMsg ("invalid zipcode")⟩
  else
    match getCEPInfo cep postal with
    | Except.error _ => ⟨404, RespBody.errorMsg ("can not find zipcode")⟩
    | Except.ok cepInfo =>
        match getWeatherInfo cepInfo.localidade weather with
        | Except.error _ =>
            ⟨500, RespBody.errorMsg ("weather service unavailable")⟩
        | Except.ok weatherInfo =>
            let tempC := weatherInfo.current.tempC
            ⟨200, RespBody.report
               { tempC := tempC
                 tempF := celsiusToFahrenheit tempC
                 tempK := celsiusToKelvin tempC }⟩

end Legacy

/-- specValidFormat is the CEP format rule as the specification words it:
after removing every hyphen and stripping surrounding white space, the
string consists of exactly eight decimal digits, no more and no fewer. -/
def specValidFormat (s : String) : Prop :=
  (goTrimSpaceL (removeDashesL s.data)).length = 8
  ∧ ∀ c ∈ goTrimSpaceL (removeDashesL s.data), c.isDigit = true

/-- stringData_append relates string append to rune-list append. -/
theorem stringData_append (a b : String) : (a ++ b).data = a.data ++ b.data := by
  cases a
  cases b
  rfl

/-- matchDigits_eq_true_iff characterises the digit matcher: success is
equivalent to the list having exactly the requested length and consisting
of decimal digits only. -/
theorem matchDigits_eq_true_iff (n : Nat) (l : List Char) :
    matchDigits n l = true ↔ l.length = n ∧ ∀ c ∈ l, c.isDigit = true := by
  induction l generalizing n with
  | nil =>
    cases n with
    | zero => simp [matchDigits]
    | succ m => simp [matchDigits]
  | cons c cs ih =>
    cases n with
    | zero => simp [matchDigits]
    | succ m =>
      simp only [matchDigits, Bool.and_eq_true, ih, List.length_cons,
        List.mem_cons, Nat.succ.injEq]
      constructor
      · rintro ⟨h1, h2, h3⟩
        exact ⟨h2, fun d hd => by rcases hd with rfl | hd; exact h1; exact h3 d hd⟩
      · rintro ⟨h1, h2⟩
        exact ⟨h2 c (Or.inl rfl), h1, fun d hd => h2 d (Or.inr hd)⟩

/-- digitChar_isDigit shows every rendered digit character is a digit. -/
theorem digitChar_isDigit (d : Nat) : (digitChar d).isDigit = true := by
  unfold digitChar
  split <;> rfl

/-- natDigitsCore_isDigit shows the decimal rendering produces digit
characters only. -/
theorem natDigitsCore_isDigit (fuel n : Nat) :
    ∀ c ∈ natDigitsCore fuel n, c.isDigit = true := by
  induction fuel generalizing n with
  | zero => intro c hc; simp [natDigitsCore] at hc
  | succ fuel ih =>
    intro c hc
    rw [natDigitsCore] at hc
    split at hc
    · simp at hc
      subst hc
      exact digitChar_isDigit n
    · rcases List.mem_append.mp hc with hc | hc
      · exact ih (n / 10) c hc
      · simp at hc
        subst hc
        exact digitChar_isDigit (n % 10)

/-- natDigits_isDigit shows the decimal rendering of a natural number
consists of digit characters only. -/
theorem natDigits_isDigit (n : Nat) : ∀ c ∈ natDigits n, c.isDigit = true :=
  natDigitsCore_isDigit (n + 1) n

/-- hasPrefixL_subset shows a matched prefix is contained in the scanned
list element-wise. -/
theorem hasPrefixL_subset :
    ∀ (sub s : List Char), hasPrefixL sub s = true → ∀ c ∈ sub, c ∈ s := by
  intro sub
  induction sub with
  | nil => intro s _ c hc; simp at hc
  | cons a as ih =>
    intro s h c hc
    cases s with
    | nil => simp [hasPrefixL] at h
    | cons b bs =>
      simp only [hasPrefixL, Bool.and_eq_true, beq_iff_eq] at h
      obtain ⟨rfl, h2⟩ := h
      rcases List.mem_cons.mp hc with rfl | hc2
      · exact List.mem_cons_self _ _
      · exact List.mem_cons_of_mem _ (ih bs h2 c hc2)

/-- containsL_subset shows a matched substring is contained in the scanned
list element-wise. -/
theorem containsL_subset :
    ∀ (s sub : List Char), containsL sub s = true → ∀ c ∈ sub, c ∈ s := by
  intro s
  induction s with
  | nil =>
    intro sub h c hc
    simp only [containsL, List.isEmpty_iff] at h
    subst h
    simp at hc
  | cons b bs ih =>
    intro sub h c hc
    simp only [containsL, Bool.or_eq_true] at h
    rcases h with h | h
    · exact hasPrefixL_subset sub (b :: bs) h c hc
    · exact List.mem_cons_of_mem _ (ih sub h c hc)

/-- statusMsg_not_inv shows the generic status error message of service-a
never contains the phrase invalid zipcode, for any status code. -/
theorem statusMsg_not_inv (st : Nat) :
    goContains (("erro no serviço B: status ") ++ natStr st)
      ("invalid zipcode") = false := by
  by_contra h
  have h' : containsL (("invalid zipcode") : String).data
      ((("erro no serviço B: status ") ++ natStr st) : String).data = true := by
    simpa [goContains] using h
  have hz : 'z' ∈ ((("erro no serviço B: status ") ++ natStr st) : String).data :=
    containsL_subset _ _ h' ('z') (by decide)
  rw [stringData_append] at hz
  rcases List.mem_append.mp hz with hz | hz
  · exact absurd hz (by decide)
  · have := natDigits_isDigit st ('z') hz
    simp at this

/-- statusMsg_not_cnf shows the generic status error message of service-a
never contains the phrase can not find zipcode, for any status code. -/
theorem statusMsg_not_cnf (st : Nat) :
    goContains (("erro no serviço B: status ") ++ natStr st)
      ("can not find zipcode") = false := by
  by_contra h
  have h' : containsL (("can not find zipcode") : String).data
      ((("erro no serviço B: status ") ++ natStr st) : String).data = true := by
    simpa [goContains] using h
  have hz : 'z' ∈ ((("erro no serviço B: status ") ++ natStr st) : String).data :=
    containsL_subset _ _ h' ('z') (by decide)
  rw [stringData_append] at hz
  rcases List.mem_append.mp hz with hz | hz
  · exact absurd hz (by decide)
  · have := natDigits_isDigit st ('z') hz
    simp at this

/-- Claim C3: the CEP format validator of the input service returns true exactly
when the string, after removing every hyphen and stripping surrounding
white space, consists of exactly eight decimal digits; as a Lean function
it is pure by construction. -/
theorem isValidCEPFormat_iff_spec (s : String) :
    ServiceA.isValidCEPFormat s = true ↔ specValidFormat s := by
  unfold ServiceA.isValidCEPFormat specValidFormat
  exact matchDigits_eq_true_iff 8 _

/-- Witness for C3: the validator and the specification rule agree on the
concrete hyphenated code 01310-100, both accepting it. -/
theorem isValidCEPFormat_iff_spec_witness :
    ServiceA.isValidCEPFormat ("01310-100") = true
    ∧ specValidFormat ("01310-100") :=
  ⟨by decide, (isValidCEPFormat_iff_spec ("01310-100")).mp (by decide)⟩

/-- Claim C7: the converters compute Fahrenheit as Celsius times 1.8 plus 32 and
Kelvin as Celsius plus exactly 273, for every input; the four quoted
sample points evaluate exactly, and the legacy copies are identical. -/
theorem conversions_exact :
    (∀ c : ℚ, ServiceB.celsiusToFahrenheit c = c * 1.8 + 32
      ∧ ServiceB.celsiusToKelvin c = c + 273)
    ∧ ServiceB.celsiusToKelvin 0 = 273
    ∧ ServiceB.celsiusToFahrenheit 0 = 32
    ∧ ServiceB.celsiusToFahrenheit 100 = 212
    ∧ ServiceB.celsiusToKelvin 25.5 = 298.5
    ∧ (∀ c : ℚ, Legacy.celsiusToFahrenheit c = ServiceB.celsiusToFahrenheit c
      ∧ Legacy.celsiusToKelvin c = ServiceB.celsiusToKelvin c) := by
  refine ⟨fun c => ⟨rfl, rfl⟩, ?_, ?_, ?_, ?_, fun c => ⟨rfl, rfl⟩⟩
  · norm_num [ServiceB.celsiusToKelvin]
  · norm_num [ServiceB.celsiusToFahrenheit]
  · norm_num [ServiceB.celsiusToFahrenheit]
  · norm_num [ServiceB.celsiusToKelvin]

/-- Claim C5: on a decoded 200 registry response the postal lookup returns the
not-found error exactly when the provider error flag is set or the
locality is empty; otherwise it succeeds, and every successful return has
a non-empty locality (in both the service-b and the legacy client). -/
theorem getCEPInfo_notFound_iff :
    (∀ (cep : String) (d : CEP),
        (ServiceB.getCEPInfo cep (FetchOutcome.response 200 (Except.ok d))).fst
          = Except.error ("CEP não encontrado")
        ↔ (d.erro = true ∨ d.localidade = ("")))
    ∧ (∀ (cep : String) (d : CEP), d.erro = false → d.localidade ≠ ("") →
        (ServiceB.getCEPInfo cep (FetchOutcome.response 200 (Except.ok d))).fst
          = Except.ok d)
    ∧ (∀ (cep : String) (out : FetchOutcome CEP) (d : CEP),
        (ServiceB.getCEPInfo cep out).fst = Except.ok d → d.localidade ≠ (""))
    ∧ (∀ (cep : String) (d : CEP),
        Legacy.getCEPInfo cep (GetOutcome.response 200 (Except.ok d))
          = Except.error ("CEP não encontrado")
        ↔ (d.erro = true ∨ d.localidade = ("")))
    ∧ (∀ (cep : String) (out : GetOutcome CEP) (d : CEP),
        Legacy.getCEPInfo cep out = Except.ok d → d.localidade ≠ ("")) := by
  refine ⟨?_, ?_, ?_, ?_, ?_⟩
  · intro cep d
    by_cases he : d.erro <;> by_cases hl : d.localidade = ("") <;>
      simp [ServiceB.getCEPInfo, he, hl]
  · intro cep d he hl
    simp [ServiceB.getCEPInfo, he, hl]
  · intro cep out d h
    rcases out with m | m | ⟨st, dec⟩ <;> simp [ServiceB.getCEPInfo] at h
    by_cases hst : st = 200
    · subst hst
      rcases dec with m | d0
      · simp at h
      · by_cases he : d0.erro <;> by_cases hl : d0.localidade = ("") <;>
          simp [he, hl] at h <;> rw [← h] <;> simp [hl]
    · simp [hst] at h
  · intro cep d
    by_cases he : d.erro <;> by_cases hl : d.localidade = ("") <;>
      simp [Legacy.getCEPInfo, he, hl]
  · intro cep out d h
    rcases out with m | ⟨st, dec⟩ <;> simp [Legacy.getCEPInfo] at h
    by_cases hst : st = 200
    · subst hst
      rcases dec with m | d0
      · simp at h
      · by_cases he : d0.erro <;> by_cases hl : d0.localidade = ("") <;>
          simp [he, hl] at h <;> rw [← h] <;> simp [hl]
    · simp [hst] at h

/-- Witness for C5: a 200 registry response with the error flag set is
reported as the not-found error by the postal lookup client. -/
theorem getCEPInfo_notFound_iff_witness :
    (ServiceB.getCEPInfo ("99999999")
        (FetchOutcome.response 200 (Except.ok
          ⟨("99999999"), (""), (""), (""), (""), (""), (""), (""), (""), (""), true⟩))).fst
      = Except.error ("CEP não encontrado") :=
  (getCEPInfo_notFound_iff.1 ("99999999") _).mpr (Or.inl rfl)

/-- Claim C1: when the format is valid and the postal lookup fails for any
reason at all (transport failure, non-200 status, decode failure, error
flag, empty locality), the orchestration handler answers 404 with the
body message can not find zipcode — never a 5xx — in both the service-b
handler and the legacy handler. -/
theorem postalFailure_maps_to_404 :
    (∀ (cep : String) (postal : FetchOutcome CEP)
        (weather : FetchOutcome WeatherData) (e : String),
        ServiceB.isValidCEP cep = true →
        (ServiceB.getCEPInfo cep postal).fst = Except.error e →
        (ServiceB.weatherHandler cep postal weather).fst
          = ⟨404, RespBody.errorMsg ("can not find zipcode")⟩)
    ∧ (∀ (cep : String) (postal : GetOutcome CEP)
        (weather : GetOutcome WeatherData) (e : String),
        Legacy.isValidCEP cep = true →
        Legacy.getCEPInfo cep postal = Except.error e →
        Legacy.weatherHandler cep postal weather
          = ⟨404, Legacy.RespBody.errorMsg ("can not find zipcode")⟩) := by
  constructor
  · intro cep postal weather e hv he
    unfold ServiceB.weatherHandler
    rcases hG : ServiceB.getCEPInfo cep postal with ⟨res, tr⟩
    rw [hG] at he
    simp only at he
    subst he
    simp [hv]
  · intro cep postal weather e hv he
    unfold Legacy.weatherHandler
    rw [he]
    simp [hv]

/-- Witness for C1: a transport failure of the ViaCEP call on the valid
code 12345678 yields the 404 not-found response. -/
theorem postalFailure_maps_to_404_witness :
    (ServiceB.weatherHandler ("12345678") (FetchOutcome.netError ("down"))
        (FetchOutcome.netError ("x"))).fst
      = ⟨404, RespBody.errorMsg ("can not find zipcode")⟩ :=
  postalFailure_maps_to_404.1 ("12345678") (FetchOutcome.netError ("down"))
    (FetchOutcome.netError ("x")) (("erro ao consultar CEP: ") ++ ("down"))
    (by decide) rfl

/-- goContains_inv_self evaluates the substring check of service-a on the
canonical 422 message. -/
theorem goContains_inv_self :
    goContains ("invalid zipcode") ("invalid zipcode") = true := by decide

/-- goContains_cnf_not_inv shows the canonical 404 message does not contain
the canonical 422 phrase. -/
theorem goContains_cnf_not_inv :
    goContains ("can not find zipcode") ("invalid zipcode") = false := by decide

/-- goContains_cnf_self evaluates the substring check of service-a on the
canonical 404 message. -/
theorem goContains_cnf_self :
    goContains ("can not find zipcode") ("can not find zipcode") = true := by decide

/-- Counterexample to C2 as stated: a transport failure of the call-out
whose Go error text happens to contain the phrase invalid zipcode is
re-mapped by the input handler to 422, not to the claimed 500, because the
handler classifies errors by substring search on the error text. -/
theorem cepHandler_transport_text_422 :
    (ServiceA.cepHandler (Except.ok ⟨("12345678")⟩)
        (FetchOutcome.netError ("invalid zipcode"))).fst
      = ⟨422, RespBody.errorMsg ("invalid zipcode")⟩
    ∧ (ServiceA.cepHandler (Except.ok ⟨("12345678")⟩)
        (FetchOutcome.netError ("invalid zipcode"))).fst
      ≠ ⟨500, RespBody.errorMsg ("internal server error")⟩ := by
  constructor
  · decide
  · decide

/-- Claim C2 (amended): for a decoded body with a non-empty, format-valid CEP,
the input handler maps the call-out outcome as follows: status 200 relays
the decoded report with 200; status 422 yields 422 invalid zipcode; status
404 yields 404 can not find zipcode; every other status yields 500
internal server error; and a transport failure or a 200-decode failure
also yields 500 internal server error provided the resulting Go error text
does not itself contain one of the two canonical phrases. -/
theorem cepHandler_status_mapping :
    ∀ (cep : String), cep ≠ ("") → ServiceA.isValidCEPFormat cep = true →
    (∀ t, (ServiceA.cepHandler (Except.ok ⟨cep⟩)
        (FetchOutcome.response 200 (Except.ok t))).fst
        = ⟨200, RespBody.report t⟩)
    ∧ (∀ dec, (ServiceA.cepHandler (Except.ok ⟨cep⟩)
        (FetchOutcome.response 422 dec)).fst
        = ⟨422, RespBody.errorMsg ("invalid zipcode")⟩)
    ∧ (∀ dec, (ServiceA.cepHandler (Except.ok ⟨cep⟩)
        (FetchOutcome.response 404 dec)).fst
        = ⟨404, RespBody.errorMsg ("can not find zipcode")⟩)
    ∧ (∀ (st : Nat) dec, st ≠ 200 → st ≠ 422 → st ≠ 404 →
        (ServiceA.cepHandler (Except.ok ⟨cep⟩)
          (FetchOutcome.response st dec)).fst
        = ⟨500, RespBody.errorMsg ("internal server error")⟩)
    ∧ (∀ m : String,
        goContains (("erro ao chamar serviço B: ") ++ m) ("invalid zipcode") = false →
        goContains (("erro ao chamar serviço B: ") ++ m) ("can not find zipcode") = false →
        (ServiceA.cepHandler (Except.ok ⟨cep⟩) (FetchOutcome.netError m)).fst
        = ⟨500, RespBody.errorMsg ("internal server error")⟩)
    ∧ (∀ m : String,
        goContains (("erro ao decodificar resposta: ") ++ m) ("invalid zipcode") = false →
        goContains (("erro ao decodificar resposta: ") ++ m) ("can not find zipcode") = false →
        (ServiceA.cepHandler (Except.ok ⟨cep⟩)
          (FetchOutcome.response 200 (Except.error m))).fst
        = ⟨500, RespBody.errorMsg ("internal server error")⟩) := by
  intro cep h0 h1
  refine ⟨?_, ?_, ?_, ?_, ?_, ?_⟩
  · intro t
    simp [ServiceA.cepHandler, ServiceA.callServiceB, h0, h1]
  · intro dec
    simp [ServiceA.cepHandler, ServiceA.callServiceB, h0, h1, goContains_inv_self]
  · intro dec
    simp [ServiceA.cepHandler, ServiceA.callServiceB, h0, h1,
      goContains_cnf_not_inv, goContains_cnf_self]
  · intro st dec hs1 hs2 hs3
    simp [ServiceA.cepHandler, ServiceA.callServiceB, h0, h1, hs1, hs2, hs3,
      statusMsg_not_inv, statusMsg_not_cnf]
  · intro m hm1 hm2
    simp [ServiceA.cepHandler, ServiceA.callServiceB, h0, h1, hm1, hm2]
  · intro m hm1 hm2
    simp [ServiceA.cepHandler, ServiceA.callServiceB, h0, h1, hm1, hm2]

/-- Witness for C2 (amended): an unrecognised status 503 from the call-out
is mapped to the generic 500 internal server error. -/
theorem cepHandler_status_mapping_witness :
    (ServiceA.cepHandler (Except.ok ⟨("12345678")⟩)
        (FetchOutcome.response 503 (Except.error ("")))).fst
      = ⟨500, RespBody.errorMsg ("internal server error")⟩ :=
  (cepHandler_status_mapping ("12345678") (by decide) (by decide)).2.2.2.1
    503 (Except.error ("")) (by decide) (by decide) (by decide)

/-- Claim C10: the validators of the input service, the orchestration service
and the legacy variant are extensionally equal, and a CEP accepted by the
input handler's validator is never answered 422 by the orchestration
handler, so the input handler's 422 re-mapping branch cannot trigger
end-to-end. -/
theorem validators_agree :
    (∀ s, ServiceA.isValidCEPFormat s = ServiceB.isValidCEP s)
    ∧ (∀ s, ServiceA.isValidCEPFormat s = Legacy.isValidCEP s)
    ∧ (∀ (cep : String) (p : FetchOutcome CEP) (w : FetchOutcome WeatherData),
        ServiceA.isValidCEPFormat cep = true →
        (ServiceB.weatherHandler cep p w).fst.status ≠ 422) := by
  refine ⟨fun s => rfl, fun s => rfl, ?_⟩
  intro cep p w hv
  have hv' : ServiceB.isValidCEP cep = true := hv
  unfold ServiceB.weatherHandler
  rcases hG : ServiceB.getCEPInfo cep p with ⟨res, tr⟩
  rcases res with e | d
  · simp [hv', hG]
  · rcases hW : ServiceB.getWeatherInfo d.localidade w with ⟨wres, tr2⟩
    rcases wres with e | wd <;> simp [hv', hG, hW]

/-- Witness for C10: the valid code 12345678 is never answered 422 by the
orchestration handler, here exercised with a failing postal upstream. -/
theorem validators_agree_witness :
    (ServiceB.weatherHandler ("12345678") (FetchOutcome.netError ("x"))
        (FetchOutcome.netError ("y"))).fst.status ≠ 422 :=
  validators_agree.2.2 ("12345678") (FetchOutcome.netError ("x"))
    (FetchOutcome.netError ("y")) (by decide)

/-- Claim C6: when the postal lookup succeeds and the weather lookup then fails
for any reason, the orchestration handler answers 500 with body message
weather service unavailable; and the input handler maps a 500 from the
orchestration service to 500 with body message internal server error. -/
theorem weatherFailure_500_mapping :
    (∀ (cep : String) (postal : FetchOutcome CEP)
        (weather : FetchOutcome WeatherData) (d : CEP) (e : String),
        ServiceB.isValidCEP cep = true →
        (ServiceB.getCEPInfo cep postal).fst = Except.ok d →
        (ServiceB.getWeatherInfo d.localidade weather).fst = Except.error e →
        (ServiceB.weatherHandler cep postal weather).fst
          = ⟨500, RespBody.errorMsg ("weather service unavailable")⟩)
    ∧ (∀ (cep : String) (dec : Except String TemperatureResponse),
        cep ≠ ("") → ServiceA.isValidCEPFormat cep = true →
        (ServiceA.cepHandler (Except.ok ⟨cep⟩)
            (FetchOutcome.response 500 dec)).fst
          = ⟨500, RespBody.errorMsg ("internal server error")⟩) := by
  constructor
  · intro cep postal weather d e hv hd hw
    unfold ServiceB.weatherHandler
    rcases hG : ServiceB.getCEPInfo cep postal with ⟨res, tr⟩
    rw [hG] at hd
    simp only at hd
    subst hd
    rcases hW : ServiceB.getWeatherInfo d.localidade weather with ⟨wres, tr2⟩
    rw [hW] at hw
    simp only at hw
    subst hw
    simp [hv, hG, hW]
  · intro cep dec h0 h1
    simp [ServiceA.cepHandler, ServiceA.callServiceB, h0, h1,
      statusMsg_not_inv, statusMsg_not_cnf]

/-- Witness for C6: a resolved locality with a weather transport failure
produces the 500 weather-unavailable response from the orchestration
handler, and the input handler turns a bare 500 into the generic message. -/
theorem weatherFailure_500_mapping_witness :
    (ServiceB.weatherHandler ("01310100")
        (FetchOutcome.response 200 (Except.ok
          ⟨("01310100"), (""), (""), (""), ("São Paulo"), ("SP"),
           (""), (""), (""), (""), false⟩))
        (FetchOutcome.netError ("down"))).fst
      = ⟨500, RespBody.errorMsg ("weather service unavailable")⟩
    ∧ (ServiceA.cepHandler (Except.ok ⟨("01310100")⟩)
        (FetchOutcome.response 500 (Except.error ("")))).fst
      = ⟨500, RespBody.errorMsg ("internal server error")⟩ :=
  ⟨weatherFailure_500_mapping.1 ("01310100") _ _
      ⟨("01310100"), (""), (""), (""), ("São Paulo"), ("SP"),
       (""), (""), (""), (""), false⟩
      (("erro ao consultar clima: ") ++ ("down")) (by decide) rfl rfl,
   weatherFailure_500_mapping.2 ("01310100") (Except.error (""))
      (by decide) (by decide)⟩

/-- Claim C8: on the success path the orchestration handler answers 200 with a
report holding exactly city, temp_C, temp_F and temp_K, where the city is
the weather provider's resolved location name (not the postal locality),
temp_C is the provider reading, and the other two are derived from it by
the fixed conversions. -/
theorem success_report_fields :
    ∀ (cep : String) (postal : FetchOutcome CEP)
      (weather : FetchOutcome WeatherData) (d : CEP) (w : WeatherData),
      ServiceB.isValidCEP cep = true →
      (ServiceB.getCEPInfo cep postal).fst = Except.ok d →
      (ServiceB.getWeatherInfo d.localidade weather).fst = Except.ok w →
      (ServiceB.weatherHandler cep postal weather).fst
        = ⟨200, RespBody.report
            { city := w.location.name
              tempC := w.current.tempC
              tempF := ServiceB.celsiusToFahrenheit w.current.tempC
              tempK := ServiceB.celsiusToKelvin w.current.tempC }⟩ := by
  intro cep postal weather d w hv hd hw
  unfold ServiceB.weatherHandler
  rcases hG : ServiceB.getCEPInfo cep postal with ⟨res, tr⟩
  rw [hG] at hd
  simp only at hd
  subst hd
  rcases hW : ServiceB.getWeatherInfo d.localidade weather with ⟨wres, tr2⟩
  rw [hW] at hw
  simp only at hw
  subst hw
  simp [hv, hG, hW]

/-- Witness for C8: a São Paulo lookup whose weather provider reports the
name Sao Paulo and 25.5 degrees yields the 200 report with that name,
25.5, 77.9 and 298.5. -/
theorem success_report_fields_witness :
    (ServiceB.weatherHandler ("01310100")
        (FetchOutcome.response 200 (Except.ok
          ⟨("01310100"), (""), (""), (""), ("São Paulo"), ("SP"),
           (""), (""), (""), (""), false⟩))
        (FetchOutcome.response 200 (Except.ok
          ⟨⟨("Sao Paulo"), (""), ("")⟩, ⟨25.5, ⟨("")⟩⟩⟩))).fst
      = ⟨200, RespBody.report ⟨("Sao Paulo"), 25.5, 77.9, 298.5⟩⟩ := by
  have h := success_report_fields ("01310100")
    (FetchOutcome.response 200 (Except.ok
      ⟨("01310100"), (""), (""), (""), ("São Paulo"), ("SP"),
       (""), (""), (""), (""), false⟩))
    (FetchOutcome.response 200 (Except.ok
      ⟨⟨("Sao Paulo"), (""), ("")⟩, ⟨25.5, ⟨("")⟩⟩⟩))
    ⟨("01310100"), (""), (""), (""), ("São Paulo"), ("SP"),
     (""), (""), (""), (""), false⟩
    ⟨⟨("Sao Paulo"), (""), ("")⟩, ⟨25.5, ⟨("")⟩⟩⟩
    (by decide) rfl rfl
  rw [h]
  norm_num [ServiceB.celsiusToFahrenheit, ServiceB.celsiusToKelvin]

/-- getCEPInfo_no_weather shows the postal lookup trace never contains a
weather call event. -/
theorem getCEPInfo_no_weather (cep : String) (out : FetchOutcome CEP)
    (q : String) : Ev.callWeather q ∉ (ServiceB.getCEPInfo cep out).snd := by
  rcases out with m | m | ⟨st, dec⟩
  · simp [ServiceB.getCEPInfo]
  · simp [ServiceB.getCEPInfo]
  · by_cases hst : st = 200
    · subst hst
      rcases dec with m | d
      · simp [ServiceB.getCEPInfo]
      · by_cases he : d.erro <;> by_cases hl : d.localidade = ("") <;>
          simp [ServiceB.getCEPInfo, he, hl]
    · simp [ServiceB.getCEPInfo, hst]

/-- getWeatherInfo_weather_mem shows every weather call event in the
weather lookup trace queries exactly the locality that was passed in. -/
theorem getWeatherInfo_weather_mem (loc : String)
    (out : FetchOutcome WeatherData) (q : String) :
    Ev.callWeather q ∈ (ServiceB.getWeatherInfo loc out).snd → q = loc := by
  rcases out with m | m | ⟨st, dec⟩
  · simp [ServiceB.getWeatherInfo]
  · simp [ServiceB.getWeatherInfo]
  · by_cases hst : st = 200
    · subst hst
      rcases dec with m | w <;> simp [ServiceB.getWeatherInfo]
    · simp [ServiceB.getWeatherInfo, hst]

/-- Claim C9: a format-rejected request performs zero upstream calls in either
handler (and a malformed body performs none either), and whenever the
orchestration handler issues a weather call, the postal lookup of the same
request succeeded and the weather query is exactly the resolved locality. -/
theorem upstream_call_discipline :
    (∀ (cep : String) (p : FetchOutcome CEP) (w : FetchOutcome WeatherData),
        ServiceB.isValidCEP cep = false →
        hasUpstreamCall (ServiceB.weatherHandler cep p w).snd = false)
    ∧ (∀ (cep : String) (svcB : FetchOutcome TemperatureResponse),
        cep = ("") ∨ ServiceA.isValidCEPFormat cep = false →
        hasUpstreamCall (ServiceA.cepHandler (Except.ok ⟨cep⟩) svcB).snd = false)
    ∧ (∀ (e : String) (svcB : FetchOutcome TemperatureResponse),
        hasUpstreamCall (ServiceA.cepHandler (Except.error e) svcB).snd = false)
    ∧ (∀ (cep : String) (p : FetchOutcome CEP) (w : FetchOutcome WeatherData)
        (q : String),
        Ev.callWeather q ∈ (ServiceB.weatherHandler cep p w).snd →
        ∃ d, (ServiceB.getCEPInfo cep p).fst = Except.ok d ∧ q = d.localidade) := by
  refine ⟨?_, ?_, ?_, ?_⟩
  · intro cep p w hv
    simp [ServiceB.weatherHandler, hv, hasUpstreamCall, isUpstreamCall]
  · intro cep svcB hrej
    simp [ServiceA.cepHandler, hrej, hasUpstreamCall, isUpstreamCall]
  · intro e svcB
    simp [ServiceA.cepHandler, hasUpstreamCall, isUpstreamCall]
  · intro cep p w q hmem
    unfold ServiceB.weatherHandler at hmem
    by_cases hv : ServiceB.isValidCEP cep = false
    · simp [hv] at hmem
    · rw [if_neg hv] at hmem
      rcases hG : ServiceB.getCEPInfo cep p with ⟨res, tr⟩
      rw [hG] at hmem
      have htr : Ev.callWeather q ∉ tr := by
        have h := getCEPInfo_no_weather cep p q
        rw [hG] at h
        exact h
      rcases res with e | d
      · simp at hmem
        exact absurd hmem htr
      · dsimp only at hmem
        rcases hW : ServiceB.getWeatherInfo d.localidade w with ⟨wres, tr2⟩
        rw [hW] at hmem
        have htr2 : Ev.callWeather q ∈ tr2 → q = d.localidade := by
          intro h
          have h2 := getWeatherInfo_weather_mem d.localidade w q
          rw [hW] at h2
          exact h2 h
        refine ⟨d, rfl, ?_⟩
        rcases wres with e | wd
        · simp at hmem
          rcases hmem with hmem | hmem
          · exact absurd hmem htr
          · exact htr2 hmem
        · simp at hmem
          rcases hmem with hmem | hmem
          · exact absurd hmem htr
          · exact htr2 hmem

/-- Witness for C9: with a successful postal resolution to the locality X
and a failing weather upstream, the orchestration trace contains the
weather call for X, so the postal lookup is confirmed successful. -/
theorem upstream_call_discipline_witness :
    ∃ d, (ServiceB.getCEPInfo ("12345678")
        (FetchOutcome.response 200 (Except.ok
          ⟨("12345678"), (""), (""), (""), ("X"), (""),
           (""), (""), (""), (""), false⟩))).fst = Except.ok d
      ∧ ("X") = d.localidade :=
  upstream_call_discipline.2.2.2 ("12345678")
    (FetchOutcome.response 200 (Except.ok
      ⟨("12345678"), (""), (""), (""), ("X"), (""),
       (""), (""), (""), (""), false⟩))
    (FetchOutcome.netError ("down")) ("X") (by decide)

/-- countStart_append distributes the start counter over concatenation. -/
theorem countStart_append (op : String) (l1 l2 : List Ev) :
    countStart op (l1 ++ l2) = countStart op l1 + countStart op l2 := by
  induction l1 with
  | nil => simp [countStart]
  | cons e rest ih => cases e <;> simp [countStart, ih] <;> omega

/-- countStop_append distributes the stop counter over concatenation. -/
theorem countStop_append (op : String) (l1 l2 : List Ev) :
    countStop op (l1 ++ l2) = countStop op l1 + countStop op l2 := by
  induction l1 with
  | nil => simp [countStop]
  | cons e rest ih => cases e <;> simp [countStop, ih] <;> omega

/-- getCEPInfo_counts computes the span counters of the postal lookup
trace: exactly one start and one stop, both for get_cep_info. -/
theorem getCEPInfo_counts (cep : String) (out : FetchOutcome CEP)
    (op : String) :
    countStart op (ServiceB.getCEPInfo cep out).snd
      = (if ("get_cep_info") = op then 1 else 0)
    ∧ countStop op (ServiceB.getCEPInfo cep out).snd
      = (if ("get_cep_info") = op then 1 else 0) := by
  rcases out with m | m | ⟨st, dec⟩
  · simp [ServiceB.getCEPInfo, countStart, countStop]
  · simp [ServiceB.getCEPInfo, countStart, countStop]
  · by_cases hst : st = 200
    · subst hst
      rcases dec with m | d
      · simp [ServiceB.getCEPInfo, countStart, countStop]
      · by_cases he : d.erro <;> by_cases hl : d.localidade = ("") <;>
          simp [ServiceB.getCEPInfo, he, hl, countStart, countStop]
    · simp [ServiceB.getCEPInfo, hst, countStart, countStop]

/-- getWeatherInfo_counts computes the span counters of the weather lookup
trace: exactly one start and one stop, both for get_weather_info. -/
theorem getWeatherInfo_counts (loc : String) (out : FetchOutcome WeatherData)
    (op : String) :
    countStart op (ServiceB.getWeatherInfo loc out).snd
      = (if ("get_weather_info") = op then 1 else 0)
    ∧ countStop op (ServiceB.getWeatherInfo loc out).snd
      = (if ("get_weather_info") = op then 1 else 0) := by
  rcases out with m | m | ⟨st, dec⟩
  · simp [ServiceB.getWeatherInfo, countStart, countStop]
  · simp [ServiceB.getWeatherInfo, countStart, countStop]
  · by_cases hst : st = 200
    · subst hst
      rcases dec with m | w <;>
        simp [ServiceB.getWeatherInfo, countStart, countStop]
    · simp [ServiceB.getWeatherInfo, hst, countStart, countStop]

/-- callServiceB_counts computes the span counters of the call-out trace:
exactly one start and one stop, both for call_service_b. -/
theorem callServiceB_counts (cep : String)
    (out : FetchOutcome TemperatureResponse) (op : String) :
    countStart op (ServiceA.callServiceB cep out).snd
      = (if ("call_service_b") = op then 1 else 0)
    ∧ countStop op (ServiceA.callServiceB cep out).snd
      = (if ("call_service_b") = op then 1 else 0) := by
  rcases out with m | m | ⟨st, dec⟩
  · simp [ServiceA.callServiceB, countStart, countStop]
  · simp [ServiceA.callServiceB, countStart, countStop]
  · by_cases hst : st = 200
    · subst hst
      rcases dec with m | t <;>
        simp [ServiceA.callServiceB, countStart, countStop]
    · by_cases h422 : st = 422
      · subst h422
        simp [ServiceA.callServiceB, countStart, countStop]
      · by_cases h404 : st = 404
        · subst h404
          simp [ServiceA.callServiceB, countStart, countStop]
        · simp [ServiceA.callServiceB, hst, h422, h404, countStart, countStop]

/-- weatherHandler_balanced shows every span name has as many starts as
stops in the orchestration handler trace, on every path. -/
theorem weatherHandler_balanced (cep : String) (p : FetchOutcome CEP)
    (w : FetchOutcome WeatherData) (op : String) :
    countStart op (ServiceB.weatherHandler cep p w).snd
      = countStop op (ServiceB.weatherHandler cep p w).snd := by
  unfold ServiceB.weatherHandler
  by_cases hv : ServiceB.isValidCEP cep = false
  · simp [hv, countStart, countStop]
  · rw [if_neg hv]
    rcases hG : ServiceB.getCEPInfo cep p with ⟨res, tr⟩
    have hc := getCEPInfo_counts cep p op
    rw [hG] at hc
    dsimp only at hc
    rcases res with e | d
    · simp [countStart, countStop, countStart_append, countStop_append,
        hc.1, hc.2] <;> omega
    · dsimp only
      rcases hW : ServiceB.getWeatherInfo d.localidade w with ⟨wres, tr2⟩
      have hw := getWeatherInfo_counts d.localidade w op
      rw [hW] at hw
      dsimp only at hw
      rcases wres with e | wd <;>
        simp [countStart, countStop, countStart_append, countStop_append,
          hc.1, hc.2, hw.1, hw.2] <;> omega

/-- cepHandler_balanced shows every span name has as many starts as stops
in the input handler trace, on every path. -/
theorem cepHandler_balanced (body : Except String CEPRequest)
    (svcB : FetchOutcome TemperatureResponse) (op : String) :
    countStart op (ServiceA.cepHandler body svcB).snd
      = countStop op (ServiceA.cepHandler body svcB).snd := by
  unfold ServiceA.cepHandler
  rcases body with e | req
  · simp [countStart, countStop]
  · dsimp only
    by_cases hrej : req.cep = ("") ∨ ServiceA.isValidCEPFormat req.cep = false
    · rw [if_pos hrej]
      simp [countStart, countStop]
    · rw [if_neg hrej]
      rcases hC : ServiceA.callServiceB req.cep svcB with ⟨res, tr⟩
      have hc := callServiceB_counts req.cep svcB op
      rw [hC] at hc
      dsimp only at hc
      rcases res with e | t
      · dsimp only
        split_ifs <;>
          simp [countStart, countStop, countStart_append, countStop_append,
            hc.1, hc.2] <;> omega
      · simp [countStart, countStop, countStart_append, countStop_append,
          hc.1, hc.2] <;> omega

/-- weatherHandler_span_counts shows the weather_handler span is opened
and closed exactly once on every path of the orchestration handler. -/
theorem weatherHandler_span_counts (cep : String) (p : FetchOutcome CEP)
    (w : FetchOutcome WeatherData) :
    countStart ("weather_handler") (ServiceB.weatherHandler cep p w).snd = 1
    ∧ countStop ("weather_handler") (ServiceB.weatherHandler cep p w).snd = 1 := by
  unfold ServiceB.weatherHandler
  by_cases hv : ServiceB.isValidCEP cep = false
  · simp [hv, countStart, countStop]
  · rw [if_neg hv]
    rcases hG : ServiceB.getCEPInfo cep p with ⟨res, tr⟩
    have hc := getCEPInfo_counts cep p ("weather_handler")
    rw [hG] at hc
    dsimp only at hc
    have hc1 : countStart ("weather_handler") tr = 0 := by rw [hc.1]; decide
    have hc2 : countStop ("weather_handler") tr = 0 := by rw [hc.2]; decide
    rcases res with e | d
    · simp [countStart, countStop, countStart_append, countStop_append, hc1, hc2]
    · dsimp only
      rcases hW : ServiceB.getWeatherInfo d.localidade w with ⟨wres, tr2⟩
      have hw := getWeatherInfo_counts d.localidade w ("weather_handler")
      rw [hW] at hw
      dsimp only at hw
      have hw1 : countStart ("weather_handler") tr2 = 0 := by rw [hw.1]; decide
      have hw2 : countStop ("weather_handler") tr2 = 0 := by rw [hw.2]; decide
      rcases wres with e | wd <;>
        simp [countStart, countStop, countStart_append, countStop_append,
          hc1, hc2, hw1, hw2]

/-- cepHandler_span_counts shows the cep_handler span is opened and closed
exactly once on every path of the input handler. -/
theorem cepHandler_span_counts (body : Except String CEPRequest)
    (svcB : FetchOutcome TemperatureResponse) :
    countStart ("cep_handler") (ServiceA.cepHandler body svcB).snd = 1
    ∧ countStop ("cep_handler") (ServiceA.cepHandler body svcB).snd = 1 := by
  unfold ServiceA.cepHandler
  rcases body with e | req
  · simp [countStart, countStop]
  · dsimp only
    by_cases hrej : req.cep = ("") ∨ ServiceA.isValidCEPFormat req.cep = false
    · rw [if_pos hrej]
      simp [countStart, countStop]
    · rw [if_neg hrej]
      rcases hC : ServiceA.callServiceB req.cep svcB with ⟨res, tr⟩
      have hc := callServiceB_counts req.cep svcB ("cep_handler")
      rw [hC] at hc
      dsimp only at hc
      have hc1 : countStart ("cep_handler") tr = 0 := by rw [hc.1]; decide
      have hc2 : countStop ("cep_handler") tr = 0 := by rw [hc.2]; decide
      rcases res with e | t
      · dsimp only
        split_ifs <;>
          simp [countStart, countStop, countStart_append, countStop_append,
            hc1, hc2]
      · simp [countStart, countStop, countStart_append, countStop_append,
          hc1, hc2]

/-- Claim C4: every span opened by a handler or lookup-client operation
(cep_handler, call_service_b, weather_handler, get_cep_info,
get_weather_info) is closed exactly once on every exit path: both handler
traces are start/stop balanced for every span name, and each operation
opens and closes its own span exactly once whenever it runs. -/
theorem spans_open_close_once :
    (∀ (body : Except String CEPRequest)
        (svcB : FetchOutcome TemperatureResponse) (op : String),
        countStart op (ServiceA.cepHandler body svcB).snd
          = countStop op (ServiceA.cepHandler body svcB).snd)
    ∧ (∀ (cep : String) (p : FetchOutcome CEP) (w : FetchOutcome WeatherData)
        (op : String),
        countStart op (ServiceB.weatherHandler cep p w).snd
          = countStop op (ServiceB.weatherHandler cep p w).snd)
    ∧ (∀ (body : Except String CEPRequest)
        (svcB : FetchOutcome TemperatureResponse),
        countStart ("cep_handler") (ServiceA.cepHandler body svcB).snd = 1
        ∧ countStop ("cep_handler") (ServiceA.cepHandler body svcB).snd = 1)
    ∧ (∀ (cep : String) (out : FetchOutcome TemperatureResponse),
        countStart ("call_service_b") (ServiceA.callServiceB cep out).snd = 1
        ∧ countStop ("call_service_b") (ServiceA.callServiceB cep out).snd = 1)
    ∧ (∀ (cep : String) (p : FetchOutcome CEP) (w : FetchOutcome WeatherData),
        countStart ("weather_handler") (ServiceB.weatherHandler cep p w).snd = 1
        ∧ countStop ("weather_handler") (ServiceB.weatherHandler cep p w).snd = 1)
    ∧ (∀ (cep : String) (out : FetchOutcome CEP),
        countStart ("get_cep_info") (ServiceB.getCEPInfo cep out).snd = 1
        ∧ countStop ("get_cep_info") (ServiceB.getCEPInfo cep out).snd = 1)
    ∧ (∀ (loc : String) (out : FetchOutcome WeatherData),
        countStart ("get_weather_info") (ServiceB.getWeatherInfo loc out).snd = 1
        ∧ countStop ("get_weather_info") (ServiceB.getWeatherInfo loc out).snd = 1) := by
  refine ⟨cepHandler_balanced, weatherHandler_balanced, cepHandler_span_counts,
    ?_, weatherHandler_span_counts, ?_, ?_⟩
  · intro cep out
    have h := callServiceB_counts cep out ("call_service_b")
    constructor
    · rw [h.1]; decide
    · rw [h.2]; decide
  · intro cep out
    have h := getCEPInfo_counts cep out ("get_cep_info")
    constructor
    · rw [h.1]; decide
    · rw [h.2]; decide
  · intro loc out
    have h := getWeatherInfo_counts loc out ("get_weather_info")
    constructor
    · rw [h.1]; decide
    · rw [h.2]; decide
